import Mathlib

/-!
Shallow embedding of the `safe_core` client (`src/core/client/mod.rs`) and the
NFS `DirectoryListing` (`src/nfs/types/directory_listing.rs`).

The routing layer is external to the repository: every routing interaction is
represented by an explicit parameter (the synchronous result of the send call,
or the value with which the pending future eventually resolves).  The interior
state of the client (`struct Inner` in the source) is threaded explicitly.
Machine `u64` arithmetic is modelled over `Nat` with reduction modulo `2 ^ 64`
at the points where the source performs `u64` addition.
-/

/-- Modulus of Rust's `u64` type. -/
def U64_MOD : Nat := 2 ^ 64

/-- `XorName`: 32-byte network address, modelled as a natural number. -/
abbrev XorName := Nat

/-- `MessageId`: fresh correlation key for requests, modelled as a natural
number drawn from a counter. -/
abbrev MessageId := Nat

/-- Public signing key (`sign::PublicKey`), opaque. -/
abbrev PublicSignKey := Nat

/-- Secret signing key (`sign::SecretKey`), opaque. -/
abbrev SecretSignKey := Nat

/-- Routing-layer send error (`routing::InterfaceError`), opaque. -/
abbrev RoutingError := Nat

/-- `routing::DataIdentifier`: tagged address of a network datum. -/
inductive DataIdentifier
  | Immutable (n : XorName)
  | Structured (n : XorName) (tag : Nat)
  | PrivAppendable (n : XorName)
  | PubAppendable (n : XorName)
deriving DecidableEq, Repr

/-- `DataIdentifier::name()`. -/
def DataIdentifier.name : DataIdentifier → XorName
  | .Immutable n => n
  | .Structured n _ => n
  | .PrivAppendable n => n
  | .PubAppendable n => n

/-- `routing::ImmutableData`: content-addressed datum.  The name is carried
explicitly (in the source it is the hash of the content, computed by the
external routing crate). -/
structure ImmutableData where
  dataName : XorName
  value : List Nat
deriving DecidableEq, Repr

/-- `routing::StructuredData` (external crate, used by the client as a black
box with the stated shape): versioned, owned, signed datum.  `signedWith`
records the secret key passed to the constructor; `deleted` is the flag
reported by `is_deleted()`. -/
structure StructuredData where
  type_tag : Nat
  sdName : XorName
  version : Nat
  payload : List Nat
  owner_keys : List PublicSignKey
  previous_owner_keys : List PublicSignKey
  signedWith : Option SecretSignKey
  deleted : Bool
deriving DecidableEq, Repr

/-- `StructuredData::new(tag, name, version, data, owners, prev_owners, Some(sk))`:
constructor of the external routing crate; the model records the fields and the
signing key and marks the datum as not deleted. -/
def StructuredData.new (tag : Nat) (n : XorName) (version : Nat) (payload : List Nat)
    (owners prev_owners : List PublicSignKey) (sk : Option SecretSignKey) :
    StructuredData :=
  { type_tag := tag
    sdName := n
    version := version
    payload := payload
    owner_keys := owners
    previous_owner_keys := prev_owners
    signedWith := sk
    deleted := false }

/-- `StructuredData::is_deleted()`. -/
def StructuredData.is_deleted (d : StructuredData) : Bool := d.deleted

/-- `routing::AppendableData` (both private and public flavours are used by the
client only through version and owner keys). -/
structure AppendableData where
  adName : XorName
  version : Nat
  owner_keys : List PublicSignKey
deriving DecidableEq, Repr

/-- `routing::Data`: tagged union over the data kinds. -/
inductive Data
  | Immutable (d : ImmutableData)
  | Structured (d : StructuredData)
  | PrivAppendable (d : AppendableData)
  | PubAppendable (d : AppendableData)
deriving DecidableEq, Repr

/-- `Data::name()`. -/
def Data.name : Data → XorName
  | .Immutable d => d.dataName
  | .Structured d => d.sdName
  | .PrivAppendable d => d.adName
  | .PubAppendable d => d.adName

/-- `Data::identifier()`. -/
def Data.identifier : Data → DataIdentifier
  | .Immutable d => .Immutable d.dataName
  | .Structured d => .Structured d.sdName d.type_tag
  | .PrivAppendable d => .PrivAppendable d.adName
  | .PubAppendable d => .PubAppendable d.adName

/-- `routing::Authority`: destination role of a request. -/
inductive Authority
  | ClientManager (n : XorName)
  | NaeManager (n : XorName)
deriving DecidableEq, Repr

/-- `routing::AppendWrapper`: append request wrapper; the client reads only the
`append_to` name out of it. -/
inductive AppendWrapper
  | Pub (append_to : XorName)
  | Priv (append_to : XorName)
deriving DecidableEq, Repr

/-- `AppendWrapper`'s `append_to` field, as destructured in `Client::append`. -/
def AppendWrapper.append_to : AppendWrapper → XorName
  | .Pub n => n
  | .Priv n => n

/-- `routing::client_errors::MutationError`. -/
inductive MutationError
  | NoSuchData
  | NoSuchAccount
  | AccountExists
  | DataExists
  | DataTooLarge
  | InvalidSuccessor
  | InvalidOperation
  | LowBalance
  | NetworkFull
  | NetworkOther (msg : String)
deriving DecidableEq, Repr

/-- `routing::client_errors::GetError`. -/
inductive GetError
  | NoSuchData
  | NoSuchAccount
  | NetworkOther (msg : String)
deriving DecidableEq, Repr

/-- `core::errors::CoreError`, restricted to the variants reachable from the
embedded code.  `RoutingClientError` stands for the `From<InterfaceError>`
wrapping applied at `From::from(e)` on a failed routing send. -/
inductive CoreError
  | OperationAborted
  | OperationForbiddenForClient
  | ReceivedUnexpectedEvent
  | ReceivedUnexpectedData
  | GetFailure (data_id : DataIdentifier) (reason : GetError)
  | MutationFailure (data_id : DataIdentifier) (reason : MutationError)
  | RootDirectoryAlreadyExists
  | RoutingClientError (e : RoutingError)
deriving DecidableEq, Repr

deriving instance DecidableEq for Except

/-- `core::event::CoreEvent`: the value with which a completion handle is
completed. -/
inductive CoreEvent
  | Get (res : Except CoreError Data)
  | Mutation (res : Except CoreError Unit)
  | AccountInfo (res : Except CoreError (Nat × Nat))
deriving DecidableEq, Repr

/-- `TYPE_TAG_SESSION_PACKET` (constant of the external routing crate). -/
def TYPE_TAG_SESSION_PACKET : Nat := 0

/-- `IMMUT_DATA_CACHE_SIZE` (`mod.rs` line 48). -/
def IMMUT_DATA_CACHE_SIZE : Nat := 300

/-- `lru_cache::LruCache<XorName, Data>`: bounded least-recently-used map.
`entries` is kept most-recently-used first. -/
structure LruCache where
  capacity : Nat
  entries : List (XorName × Data)
deriving DecidableEq, Repr

/-- `LruCache::new(capacity)`. -/
def LruCache.new (capacity : Nat) : LruCache :=
  { capacity := capacity, entries := [] }

/-- `LruCache::get_mut(&k)`: returns the cached value on a hit and promotes the
entry to most-recently-used. -/
def LruCache.get_mut (c : LruCache) (k : XorName) : Option Data × LruCache :=
  match c.entries.find? (fun p => p.1 == k) with
  | none => (none, c)
  | some p =>
      (some p.2,
       { capacity := c.capacity
         entries := p :: c.entries.filter (fun q => !(q.1 == k)) })

/-- `LruCache::insert(k, v)`: inserts at most-recently-used position, replacing
any entry with the same key and evicting the least-recently-used entry when the
capacity is exceeded. -/
def LruCache.insert (c : LruCache) (k : XorName) (v : Data) : LruCache :=
  { capacity := c.capacity
    entries := ((k, v) :: c.entries.filter (fun q => !(q.1 == k))).take c.capacity }

/-- Symmetric key (`secretbox::Key`), opaque. -/
abbrev SymKey := Nat

/-- A root-directory id: `(DataIdentifier, Option<secretbox::Key>)`. -/
abbrev DirId := DataIdentifier × Option SymKey

/-- Modelled from the spec: `Account` (file `src/core/client/account.rs` is not
under `src/`).  It aggregates the long-lived maid keypair (sign and box parts)
and the two optional root-directory slots. -/
structure Account where
  maid_sign_pk : PublicSignKey
  maid_sign_sk : SecretSignKey
  maid_box_pk : Nat
  maid_box_sk : Nat
  user_root_dir : Option DirId
  config_root_dir : Option DirId
deriving DecidableEq, Repr

/-- Encoding of a `DataIdentifier` used by the modelled account serializer. -/
def DataIdentifier.encode : DataIdentifier → List Nat
  | .Immutable n => [0, n]
  | .Structured n tag => [1, n, tag]
  | .PrivAppendable n => [2, n]
  | .PubAppendable n => [3, n]

/-- Encoding of an optional root-directory id used by the modelled account
serializer. -/
def encodeRootDir : Option DirId → List Nat
  | none => [0]
  | some (d, none) => [1] ++ d.encode ++ [0]
  | some (d, some key) => [1] ++ d.encode ++ [1, key]

/-- Modelled from the spec: serialization of `Account` (the serializer lives in
the missing `account.rs`); a tagged concatenation of all fields. -/
def Account.encode (a : Account) : List Nat :=
  [a.maid_sign_pk, a.maid_sign_sk, a.maid_box_pk, a.maid_box_sk] ++
    encodeRootDir a.user_root_dir ++ encodeRootDir a.config_root_dir

/-- Modelled from the spec: `Account::encrypt(password, pin)` is authenticated
symmetric encryption of the serialized account under a key derived from
`(password, pin)`; modelled as a tagged concatenation so that distinct
accounts or credentials produce distinct ciphertexts. -/
def Account.encrypt (a : Account) (password pin : List Nat) : List Nat :=
  password ++ pin ++ a.encode

/-- Modelled from the spec: `Account::set_user_root_dir_id` updates the slot
only if it was previously empty and reports whether it did. -/
def Account.set_user_root_dir_id (a : Account) (d : DirId) : Bool × Account :=
  match a.user_root_dir with
  | none => (true, { a with user_root_dir := some d })
  | some _ => (false, a)

/-- Modelled from the spec: `Account::set_config_root_dir` updates the slot
only if it was previously empty and reports whether it did. -/
def Account.set_config_root_dir (a : Account) (d : DirId) : Bool × Account :=
  match a.config_root_dir with
  | none => (true, { a with config_root_dir := some d })
  | some _ => (false, a)

/-- `UserCred`: the credentials kept in memory for re-encrypting the session
packet. -/
structure UserCred where
  pin : List Nat
  password : List Nat
deriving DecidableEq, Repr

/-- `ClientType`: unregistered or registered with account state. -/
inductive ClientType
  | Unregistered
  | Registered (acc : Account) (acc_loc : XorName) (user_cred : UserCred)
      (cm_addr : Authority)
deriving DecidableEq, Repr

/-- `ClientType::acc`. -/
def ClientType.acc : ClientType → Except CoreError Account
  | .Registered a _ _ _ => .ok a
  | .Unregistered => .error .OperationForbiddenForClient

/-- `ClientType::acc_loc`. -/
def ClientType.acc_loc : ClientType → Except CoreError XorName
  | .Registered _ l _ _ => .ok l
  | .Unregistered => .error .OperationForbiddenForClient

/-- `ClientType::user_cred`. -/
def ClientType.user_cred : ClientType → Except CoreError UserCred
  | .Registered _ _ c _ => .ok c
  | .Unregistered => .error .OperationForbiddenForClient

/-- `ClientType::cm_addr`. -/
def ClientType.cm_addr : ClientType → Except CoreError Authority
  | .Registered _ _ _ a => .ok a
  | .Unregistered => .error .OperationForbiddenForClient

/-- `Stats`: the five issued-request counters. -/
structure Stats where
  issued_gets : Nat
  issued_puts : Nat
  issued_posts : Nat
  issued_deletes : Nat
  issued_appends : Nat
deriving DecidableEq, Repr

/-- `Default for Stats`. -/
def Stats.default : Stats :=
  { issued_gets := 0, issued_puts := 0, issued_posts := 0, issued_deletes := 0
    issued_appends := 0 }

/-- `struct Inner`: the shared interior state of a `Client`.  The `routing`
handle and the thread joiner are external resources; the correlation table
`heads` is modelled by its key set (the pending `MessageId`s), and the fresh
`MessageId::new()` allocator by the counter `next_msg_id`. -/
structure ClientInner where
  heads : List MessageId
  cache : LruCache
  client_type : ClientType
  stats : Stats
  next_msg_id : MessageId
deriving DecidableEq, Repr

/-- The `Inner` built by each of the three constructors (`unregistered`,
`registered`, `login`): empty correlation table, an LRU cache of capacity
`IMMUT_DATA_CACHE_SIZE` and fresh stats. -/
def initial_inner (ct : ClientType) : ClientInner :=
  { heads := []
    cache := LruCache.new IMMUT_DATA_CACHE_SIZE
    client_type := ct
    stats := Stats.default
    next_msg_id := 0 }

/-- A request handed to a routing send call. -/
inductive Send
  | getReq (dst : Authority) (data_id : DataIdentifier) (msg_id : MessageId)
  | putReq (dst : Authority) (data : Data) (msg_id : MessageId)
  | postReq (dst : Authority) (data : Data) (msg_id : MessageId)
  | deleteReq (dst : Authority) (data : Data) (msg_id : MessageId)
  | appendReq (dst : Authority) (w : AppendWrapper) (msg_id : MessageId)
  | accountInfoReq (dst : Authority) (msg_id : MessageId)
deriving DecidableEq, Repr

/-- Result of dispatching one API call: the updated interior state, the
requests handed to routing, and the event (if any) with which the completion
handle was completed synchronously. -/
structure OpOutcome where
  state : ClientInner
  sends : List Send
  completedNow : Option CoreEvent
deriving DecidableEq, Repr

/-- The future returned by `get`: `map_err` of a dropped handle to
`OperationAborted`, then extraction of the `CoreEvent::Get` variant
(`mod.rs` lines 246-250). -/
def future_resolve_get : Option CoreEvent → Except CoreError Data
  | none => .error .OperationAborted
  | some (.Get res) => res
  | some _ => .error .ReceivedUnexpectedEvent

/-- The future built by `build_mutation_future` (`mod.rs` lines 860-867):
`map_err` of a dropped handle to `OperationAborted`, then extraction of the
`CoreEvent::Mutation` variant. -/
def build_mutation_future : Option CoreEvent → Except CoreError Unit
  | none => .error .OperationAborted
  | some (.Mutation res) => res
  | some _ => .error .ReceivedUnexpectedEvent

/-- The future returned by `get_account_info` (`mod.rs` lines 535-540):
extraction of the `CoreEvent::AccountInfo` variant. -/
def future_resolve_account_info : Option CoreEvent → Except CoreError (Nat × Nat)
  | none => .error .OperationAborted
  | some (.AccountInfo res) => res
  | some _ => .error .ReceivedUnexpectedEvent

/-- The tail of `Client::get` after the cache check: compute the destination,
allocate a fresh `MessageId`, call `send_get_request`; on a send error complete
the handle with `CoreEvent::Get(Err)`, otherwise register the head
(`mod.rs` lines 283-296). -/
def Client.get_send (st : ClientInner) (data_id : DataIdentifier)
    (opt_dst : Option Authority) (sendRes : Except RoutingError Unit) : OpOutcome :=
  let dst := match opt_dst with
    | some auth => auth
    | none => Authority.NaeManager data_id.name
  let msg_id := st.next_msg_id
  let st := { st with next_msg_id := msg_id + 1 }
  match sendRes with
  | .error e =>
      { state := st
        sends := [Send.getReq dst data_id msg_id]
        completedNow := some (.Get (.error (.RoutingClientError e))) }
  | .ok _ =>
      { state := { st with heads := msg_id :: st.heads }
        sends := [Send.getReq dst data_id msg_id]
        completedNow := none }

/-- `Client::get` (`mod.rs` lines 238-297).  `sendRes` is the synchronous
result of `send_get_request`, consulted only if a request is actually sent.
For an immutable identifier the cache is consulted first; on a hit the handle
is completed synchronously with the cached value and routing is not called. -/
def Client.get (st : ClientInner) (data_id : DataIdentifier)
    (opt_dst : Option Authority) (sendRes : Except RoutingError Unit) : OpOutcome :=
  let st := { st with stats := { st.stats with issued_gets := st.stats.issued_gets + 1 } }
  match data_id with
  | .Immutable _ =>
      match st.cache.get_mut data_id.name with
      | (some data, cache2) =>
          { state := { st with cache := cache2 }
            sends := []
            completedNow := some (.Get (.ok data)) }
      | (none, cache2) =>
          Client.get_send { st with cache := cache2 } data_id opt_dst sendRes
  | _ => Client.get_send st data_id opt_dst sendRes

/-- The map spliced onto the `get` future for an immutable identifier that
missed the cache (`mod.rs` lines 266-278): on successful resolution with
`Data::Immutable`, insert it into the cache keyed by its own name.  For any
other identifier, and on failed resolution, the state is untouched. -/
def Client.get_resolve (st : ClientInner) (data_id : DataIdentifier)
    (res : Except CoreError Data) : ClientInner :=
  match data_id with
  | .Immutable _ =>
      match res with
      | .ok (Data.Immutable d) =>
          { st with
            cache := st.cache.insert (Data.name (.Immutable d)) (.Immutable d) }
      | _ => st
  | _ => st

/-- `Client::put` (`mod.rs` lines 302-331).  The destination is the caller's or
`cm_addr` (failing for an unregistered client); note that on a send error the
source completes the handle with `CoreEvent::Get(Err)` (line 325), not
`CoreEvent::Mutation(Err)`. -/
def Client.put (st : ClientInner) (data : Data) (opt_dst : Option Authority)
    (sendRes : Except RoutingError Unit) : OpOutcome :=
  let st := { st with stats := { st.stats with issued_puts := st.stats.issued_puts + 1 } }
  let dstE : Except CoreError Authority := match opt_dst with
    | some a => .ok a
    | none => st.client_type.cm_addr
  match dstE with
  | .error e =>
      { state := st, sends := [], completedNow := some (.Mutation (.error e)) }
  | .ok dst =>
      let msg_id := st.next_msg_id
      let st := { st with next_msg_id := msg_id + 1 }
      match sendRes with
      | .error e =>
          { state := st
            sends := [Send.putReq dst data msg_id]
            completedNow := some (.Get (.error (.RoutingClientError e))) }
      | .ok _ =>
          { state := { st with heads := msg_id :: st.heads }
            sends := [Send.putReq dst data msg_id]
            completedNow := none }

/-- `Client::post` (`mod.rs` lines 429-447). -/
def Client.post (st : ClientInner) (data : Data) (opt_dst : Option Authority)
    (sendRes : Except RoutingError Unit) : OpOutcome :=
  let st := { st with stats := { st.stats with issued_posts := st.stats.issued_posts + 1 } }
  let dst := match opt_dst with
    | some a => a
    | none => Authority.NaeManager data.name
  let msg_id := st.next_msg_id
  let st := { st with next_msg_id := msg_id + 1 }
  match sendRes with
  | .error e =>
      { state := st
        sends := [Send.postReq dst data msg_id]
        completedNow := some (.Mutation (.error (.RoutingClientError e))) }
  | .ok _ =>
      { state := { st with heads := msg_id :: st.heads }
        sends := [Send.postReq dst data msg_id]
        completedNow := none }

/-- `Client::delete` (`mod.rs` lines 450-469). -/
def Client.delete (st : ClientInner) (data : Data) (opt_dst : Option Authority)
    (sendRes : Except RoutingError Unit) : OpOutcome :=
  let st := { st with stats := { st.stats with issued_deletes := st.stats.issued_deletes + 1 } }
  let dst := match opt_dst with
    | some a => a
    | none => Authority.NaeManager data.name
  let msg_id := st.next_msg_id
  let st := { st with next_msg_id := msg_id + 1 }
  match sendRes with
  | .error e =>
      { state := st
        sends := [Send.deleteReq dst data msg_id]
        completedNow := some (.Mutation (.error (.RoutingClientError e))) }
  | .ok _ =>
      { state := { st with heads := msg_id :: st.heads }
        sends := [Send.deleteReq dst data msg_id]
        completedNow := none }

/-- `Client::append` (`mod.rs` lines 499-528). -/
def Client.append (st : ClientInner) (appender : AppendWrapper)
    (opt_dst : Option Authority) (sendRes : Except RoutingError Unit) : OpOutcome :=
  let st := { st with stats := { st.stats with issued_appends := st.stats.issued_appends + 1 } }
  let dst := match opt_dst with
    | some auth => auth
    | none => Authority.NaeManager appender.append_to
  let msg_id := st.next_msg_id
  let st := { st with next_msg_id := msg_id + 1 }
  match sendRes with
  | .error e =>
      { state := st
        sends := [Send.appendReq dst appender msg_id]
        completedNow := some (.Mutation (.error (.RoutingClientError e))) }
  | .ok _ =>
      { state := { st with heads := msg_id :: st.heads }
        sends := [Send.appendReq dst appender msg_id]
        completedNow := none }

/-- `Client::get_account_info` (`mod.rs` lines 531-565).  Note that on a
destination error (unregistered client) the source completes the handle with
`CoreEvent::Mutation(Err)` (line 550) although the returned future extracts the
`CoreEvent::AccountInfo` variant. -/
def Client.get_account_info (st : ClientInner) (opt_dst : Option Authority)
    (sendRes : Except RoutingError Unit) : OpOutcome :=
  let dstE : Except CoreError Authority := match opt_dst with
    | some a => .ok a
    | none => st.client_type.cm_addr
  match dstE with
  | .error e =>
      { state := st, sends := [], completedNow := some (.Mutation (.error e)) }
  | .ok dst =>
      let msg_id := st.next_msg_id
      let st := { st with next_msg_id := msg_id + 1 }
      match sendRes with
      | .error e =>
          { state := st
            sends := [Send.accountInfoReq dst msg_id]
            completedNow := some (.AccountInfo (.error (.RoutingClientError e))) }
      | .ok _ =>
          { state := { st with heads := msg_id :: st.heads }
            sends := [Send.accountInfoReq dst msg_id]
            completedNow := none }

/-- Version extraction at the top of `put_recover` (`mod.rs` lines 347-355):
structured and appendable data carry a version; other types get no recovery. -/
def dataVersion? : Data → Option Nat
  | .Structured d => some d.version
  | .PrivAppendable d => some d.version
  | .PubAppendable d => some d.version
  | _ => none

/-- Environment of one `put_recover` run: the resolved values of the first
`put` future, of the follow-up `get` future, and of the re-`put` future. -/
structure RecoverEnv where
  firstPut : Except CoreError Unit
  getResult : Except CoreError Data
  secondPut : Except CoreError Unit
deriving DecidableEq, Repr

/-- Outcome of `put_recover`: each `Data` value handed to `Client::put`, in
order, and the value the returned future resolves with. -/
structure RecoverOutcome where
  puts : List Data
  result : Except CoreError Nat
deriving DecidableEq, Repr

/-- `Client::put_recover` (`mod.rs` lines 342-426).  The routing interaction of
the underlying `put`/`get` dispatches is abstracted by `env`; the `puts` field
records each datum handed to `Client::put`.  `StructuredData::new` never fails
in the model, so its error path (mapped to the original put error in the
source) does not arise. -/
def Client.put_recover (data : Data) (sign_sk : SecretSignKey) (env : RecoverEnv) :
    RecoverOutcome :=
  match dataVersion? data with
  | none => { puts := [data], result := env.firstPut.map (fun _ => 0) }
  | some version =>
      match env.firstPut with
      | .ok _ => { puts := [data], result := .ok version }
      | .error put_err =>
          let recoverable := match put_err with
            | .MutationFailure _ .InvalidSuccessor => true
            | .MutationFailure _ .DataExists => true
            | _ => false
          if recoverable then
            match env.getResult, data with
            | .ok (Data.Structured old), Data.Structured newD =>
                if old.is_deleted then
                  let reclaimed := StructuredData.new newD.type_tag newD.sdName
                    ((old.version + 1) % U64_MOD) newD.payload newD.owner_keys
                    newD.previous_owner_keys (some sign_sk)
                  { puts := [data, Data.Structured reclaimed]
                    result := env.secondPut.map (fun _ => reclaimed.version) }
                else if old.owner_keys == newD.owner_keys then
                  { puts := [data], result := .ok version }
                else
                  { puts := [data], result := .error put_err }
            | .ok (Data.PrivAppendable old), Data.PrivAppendable newD =>
                if old.owner_keys == newD.owner_keys then
                  { puts := [data], result := .ok version }
                else
                  { puts := [data], result := .error put_err }
            | .ok (Data.PubAppendable old), Data.PubAppendable newD =>
                if old.owner_keys == newD.owner_keys then
                  { puts := [data], result := .ok version }
                else
                  { puts := [data], result := .error put_err }
            | .ok _, _ => { puts := [data], result := .error put_err }
            | .error _, _ => { puts := [data], result := .error put_err }
          else
            { puts := [data], result := .error put_err }

/-- The `.then` closure of `Client::delete_recover` (`mod.rs` lines 477-494):
success, `MutationFailure{NoSuchData}` and `MutationFailure{InvalidOperation}`
become success; every other error is propagated unchanged. -/
def delete_recover_then : Except CoreError Unit → Except CoreError Unit
  | .ok _ => .ok ()
  | .error (.MutationFailure _ .NoSuchData) => .ok ()
  | .error (.MutationFailure _ .InvalidOperation) => .ok ()
  | .error err => .error err

/-- Outcome of `delete_recover`: dispatch effects of the single underlying
`delete` plus the value the returned future resolves with. -/
structure RecoverDeleteOutcome where
  state : ClientInner
  sends : List Send
  result : Except CoreError Unit
deriving DecidableEq, Repr

/-- `Client::delete_recover` (`mod.rs` lines 473-496): one call of
`Client::delete`, with the resolution `deleteRes` of its future passed through
the `.then` closure.  (`deleteRes` is environment-provided; when the send fails
synchronously it is the completed send error.) -/
def Client.delete_recover (st : ClientInner) (data : Data) (opt_dst : Option Authority)
    (sendRes : Except RoutingError Unit) (deleteRes : Except CoreError Unit) :
    RecoverDeleteOutcome :=
  let out := Client.delete st data opt_dst sendRes
  { state := out.state
    sends := out.sends
    result := delete_recover_then deleteRes }

/-- `Client::update_session_packet` (`mod.rs` lines 681-718), abstracted over
the resolved value of the inner `get`: the session packet that gets handed to
`Client::post`, or the error short-circuiting the chain.  The new packet
carries `version = fetched version + 1`, the single public maid signing key as
owner, no previous owners, and is signed with the maid secret signing key. -/
def Client.update_session_packet (st : ClientInner)
    (getRes : Except CoreError Data) : Except CoreError StructuredData :=
  match st.client_type.acc_loc with
  | .error e => .error e
  | .ok data_name =>
      match getRes with
      | .error e => .error e
      | .ok (Data.Structured current) =>
          match st.client_type.acc, st.client_type.user_cred with
          | .ok account, .ok keys =>
              .ok (StructuredData.new TYPE_TAG_SESSION_PACKET data_name
                ((current.version + 1) % U64_MOD)
                (account.encrypt keys.password keys.pin)
                [account.maid_sign_pk] [] (some account.maid_sign_sk))
          | .error e, _ => .error e
          | _, .error e => .error e
      | .ok _ => .error .ReceivedUnexpectedData

/-- Resolution of the whole `update_session_packet` future chain: the error of
the get/build stage, or else the resolution `postRes` of the final `post`. -/
def Client.update_session_packet_result (st : ClientInner)
    (getRes : Except CoreError Data) (postRes : Except CoreError Unit) :
    Except CoreError Unit :=
  match Client.update_session_packet st getRes with
  | .error e => .error e
  | .ok _ => postRes

/-- Outcome of a root-directory setter: the updated interior state, the session
packets handed to `Client::post`, and the value the returned future resolves
with. -/
structure RootDirOutcome where
  state : ClientInner
  posted : List StructuredData
  result : Except CoreError Unit
deriving DecidableEq, Repr

/-- `Client::set_user_root_dir_id` (`mod.rs` lines 571-587): mutate the
in-memory account first (only if the slot was empty), then run
`update_session_packet`; a populated slot fails `RootDirectoryAlreadyExists`
without touching the network. -/
def Client.set_user_root_dir_id (st : ClientInner) (dir_id : DirId)
    (getRes : Except CoreError Data) (postRes : Except CoreError Unit) :
    RootDirOutcome :=
  match st.client_type with
  | .Unregistered =>
      { state := st, posted := [], result := .error .OperationForbiddenForClient }
  | .Registered acc loc cred cm =>
      let set_acc := acc.set_user_root_dir_id dir_id
      let st := { st with client_type := .Registered set_acc.2 loc cred cm }
      if set_acc.1 then
        { state := st
          posted := match Client.update_session_packet st getRes with
            | .ok sd => [sd]
            | .error _ => []
          result := Client.update_session_packet_result st getRes postRes }
      else
        { state := st, posted := [], result := .error .RootDirectoryAlreadyExists }

/-- `Client::set_config_root_dir_id` (`mod.rs` lines 599-615): the `config`
analogue of `set_user_root_dir_id`. -/
def Client.set_config_root_dir_id (st : ClientInner) (dir_id : DirId)
    (getRes : Except CoreError Data) (postRes : Except CoreError Unit) :
    RootDirOutcome :=
  match st.client_type with
  | .Unregistered =>
      { state := st, posted := [], result := .error .OperationForbiddenForClient }
  | .Registered acc loc cred cm =>
      let set_acc := acc.set_config_root_dir dir_id
      let st := { st with client_type := .Registered set_acc.2 loc cred cm }
      if set_acc.1 then
        { state := st
          posted := match Client.update_session_packet st getRes with
            | .ok sd => [sd]
            | .error _ => []
          result := Client.update_session_packet_result st getRes postRes }
      else
        { state := st, posted := [], result := .error .RootDirectoryAlreadyExists }

/-- `routing::Response`, restricted to the variants inspected by the
`registered` constructor; `otherResponse` stands for every remaining response
kind, all of which fall through to the default arm of the wait. -/
inductive Response
  | PutSuccess (data_id : DataIdentifier) (id : MessageId)
  | PutFailure (id : MessageId) (data_id : DataIdentifier)
      (external_error_indicator : MutationError)
  | GetSuccess (data : Data) (id : MessageId)
  | GetFailure (id : MessageId) (data_id : DataIdentifier) (indicator : GetError)
  | otherResponse (id : MessageId)
deriving DecidableEq, Repr

/-- `routing::Event`, restricted to the variants relevant to the bootstrap
wait. -/
inductive Event
  | Connected
  | Disconnected
  | Terminate
  | ResponseEv (r : Response)
deriving DecidableEq, Repr

/-- Result of `recv_timeout` on the routing receiver: a timeout (or channel
error) or a received event. -/
inductive RecvOutcome
  | timeout
  | received (e : Event)
deriving DecidableEq, Repr

/-- Modelled from the spec: `routing_el::parse_mutation_err` (file
`src/core/client/routing_el.rs` is not under `src/`) deserializes the opaque
external error indicator into the `MutationError` taxonomy, falling back to
`NetworkOther` on a parse failure.  The indicator is modelled as the already
serialized `MutationError`, so parsing is the identity. -/
def parse_mutation_err (indicator : MutationError) : MutationError := indicator

/-- The wait on the session-packet PUT inside `Client::registered`
(`mod.rs` lines 123-139): `Ok(())` means the constructor goes on to build the
`Registered` client; any error is returned and no client is produced. -/
def Client.registered_wait (msg_id : MessageId) (o : RecvOutcome) :
    Except CoreError Unit :=
  match o with
  | .received (.ResponseEv (.PutSuccess _ id)) =>
      if id = msg_id then .ok () else .error .OperationAborted
  | .received (.ResponseEv (.PutFailure id data_id indicator)) =>
      if id = msg_id then
        .error (.MutationFailure data_id (parse_mutation_err indicator))
      else .error .OperationAborted
  | _ => .error .OperationAborted

/-- One transition of the client state, covering every operation that can touch
the interior state: the six dispatcher entry points and the cache-inserting
resolution of an immutable `get`.  Compound operations (`put_recover`,
`delete_recover`, `update_session_packet` and the root-directory setters) go
through these primitives for every routing interaction. -/
inductive ClientStep
  | stepGet (data_id : DataIdentifier) (dst : Option Authority)
      (sendRes : Except RoutingError Unit)
  | stepGetResolve (data_id : DataIdentifier) (res : Except CoreError Data)
  | stepPut (data : Data) (dst : Option Authority) (sendRes : Except RoutingError Unit)
  | stepPost (data : Data) (dst : Option Authority) (sendRes : Except RoutingError Unit)
  | stepDelete (data : Data) (dst : Option Authority) (sendRes : Except RoutingError Unit)
  | stepAppend (w : AppendWrapper) (dst : Option Authority)
      (sendRes : Except RoutingError Unit)
  | stepAccountInfo (dst : Option Authority) (sendRes : Except RoutingError Unit)

/-- State projection of one `ClientStep`. -/
def clientStep (st : ClientInner) : ClientStep → ClientInner
  | .stepGet data_id dst sendRes => (Client.get st data_id dst sendRes).state
  | .stepGetResolve data_id res => Client.get_resolve st data_id res
  | .stepPut data dst sendRes => (Client.put st data dst sendRes).state
  | .stepPost data dst sendRes => (Client.post st data dst sendRes).state
  | .stepDelete data dst sendRes => (Client.delete st data dst sendRes).state
  | .stepAppend w dst sendRes => (Client.append st w dst sendRes).state
  | .stepAccountInfo dst sendRes => (Client.get_account_info st dst sendRes).state

/-- Well-formedness of the immutable-data cache: capacity as configured, and
every entry holds a `Data::Immutable` value keyed by its own name. -/
def cache_wf (c : LruCache) : Prop :=
  c.capacity = IMMUT_DATA_CACHE_SIZE ∧
    ∀ p ∈ c.entries, ∃ d, p.2 = Data.Immutable d ∧ p.1 = d.dataName

/-- Modelled from the spec: the NFS `File` type (`src/nfs/types/file.rs` is not
under `src/`); its content is irrelevant to the directory-listing claims. -/
structure File where
  bytes : List Nat
deriving DecidableEq, Repr

/-- Modelled from the spec: the NFS `ContainerInfo` type
(`src/nfs/types/container_info.rs` is not under `src/`). -/
structure ContainerInfo where
  info : List Nat
deriving DecidableEq, Repr

/-- Modelled from the spec: the NFS `ContainerId` type
(`src/nfs/types/container_id.rs` is not under `src/`). -/
abbrev ContainerId := Nat

/-- Modelled from the spec: `ContainerId::new()`; the claims do not depend on
the generated value, so it is a fixed fresh id. -/
def ContainerId.new : ContainerId := 0

/-- Modelled from the spec: the NFS `Metadata` type
(`src/nfs/types/metadata.rs` is not under `src/`): a name and user metadata. -/
structure Metadata where
  mname : String
  user_metadata : List Nat
deriving DecidableEq, Repr

/-- Modelled from the spec: `Metadata::new(name, user_metadata)`. -/
def Metadata.new (nm : String) (user_metadata : List Nat) : Metadata :=
  { mname := nm, user_metadata := user_metadata }

/-- `DirectoryListing` (`directory_listing.rs` lines 24-29). -/
structure DirectoryListing where
  id : ContainerId
  metadata : Metadata
  sub_directories : List ContainerInfo
  files : List File
deriving DecidableEq, Repr

/-- `DirectoryListing::new(name, user_metadata)` (lines 32-39). -/
def DirectoryListing.new (nm : String) (user_metadata : List Nat) :
    DirectoryListing :=
  { id := ContainerId.new
    metadata := Metadata.new nm user_metadata
    sub_directories := []
    files := [] }

/-- `DirectoryListing::get_metadata` (lines 41-43). -/
def DirectoryListing.get_metadata (d : DirectoryListing) : Metadata := d.metadata

/-- `DirectoryListing::set_metadata` (lines 45-47). -/
def DirectoryListing.set_metadata (d : DirectoryListing) (m : Metadata) :
    DirectoryListing :=
  { d with metadata := m }

/-- `DirectoryListing::get_files` (lines 49-51). -/
def DirectoryListing.get_files (d : DirectoryListing) : List File := d.files

/-- `DirectoryListing::set_files` (lines 53-55). -/
def DirectoryListing.set_files (d : DirectoryListing) (files : List File) :
    DirectoryListing :=
  { d with files := files }

/-- `DirectoryListing::get_sub_directories` (lines 57-59). -/
def DirectoryListing.get_sub_directories (d : DirectoryListing) :
    List ContainerInfo :=
  d.sub_directories

/-- `DirectoryListing::set_sub_directories` (lines 61-63). -/
def DirectoryListing.set_sub_directories (d : DirectoryListing)
    (dirs : List ContainerInfo) : DirectoryListing :=
  { d with sub_directories := dirs }

/-- C10: `get_files` after `set_files(d, f)` returns exactly `f` and
`set_files` leaves `id`, `metadata` and `sub_directories` unchanged;
symmetrically `get_sub_directories` after `set_sub_directories(d, s)` returns
exactly `s` and leaves `id`, `metadata` and `files` unchanged; and
`DirectoryListing::new` starts with empty `files` and `sub_directories`. -/
theorem C10_directory_listing_setters (d : DirectoryListing) (f : List File)
    (s : List ContainerInfo) (nm : String) (um : List Nat) :
    (d.set_files f).get_files = f ∧
    (d.set_files f).id = d.id ∧
    (d.set_files f).metadata = d.metadata ∧
    (d.set_files f).sub_directories = d.sub_directories ∧
    (d.set_sub_directories s).get_sub_directories = s ∧
    (d.set_sub_directories s).id = d.id ∧
    (d.set_sub_directories s).metadata = d.metadata ∧
    (d.set_sub_directories s).files = d.files ∧
    (DirectoryListing.new nm um).files = [] ∧
    (DirectoryListing.new nm um).sub_directories = [] :=
  ⟨rfl, rfl, rfl, rfl, rfl, rfl, rfl, rfl, rfl, rfl⟩

/-- C1: on a synchronous routing send error, `put` completes its handle with
`CoreEvent::Get(Err)` (`mod.rs` line 325), so the mutation future resolves
`ReceivedUnexpectedEvent` instead of the send error, contradicting the claim;
`post`, `delete` and `append` complete with `CoreEvent::Mutation(Err)` as the
claim states. -/
theorem C1_put_send_error_completes_get_event
    (heads : List MessageId) (cache : LruCache) (ct : ClientType) (stats : Stats)
    (nmid : MessageId) (data : Data) (dst : Authority) (e : RoutingError)
    (w : AppendWrapper) :
    (Client.put (ClientInner.mk heads cache ct stats nmid) data (some dst)
        (.error e)).completedNow
      = some (.Get (.error (.RoutingClientError e))) ∧
    build_mutation_future
        (Client.put (ClientInner.mk heads cache ct stats nmid) data (some dst)
          (.error e)).completedNow
      = .error .ReceivedUnexpectedEvent ∧
    CoreError.ReceivedUnexpectedEvent ≠ CoreError.RoutingClientError e ∧
    build_mutation_future
        (Client.post (ClientInner.mk heads cache ct stats nmid) data (some dst)
          (.error e)).completedNow
      = .error (.RoutingClientError e) ∧
    build_mutation_future
        (Client.delete (ClientInner.mk heads cache ct stats nmid) data (some dst)
          (.error e)).completedNow
      = .error (.RoutingClientError e) ∧
    build_mutation_future
        (Client.append (ClientInner.mk heads cache ct stats nmid) w (some dst)
          (.error e)).completedNow
      = .error (.RoutingClientError e) := by
  refine ⟨rfl, rfl, ?_, rfl, rfl, rfl⟩
  intro h
  exact nomatch h

/-- C4: on an unregistered client with no caller-supplied destination, neither
`put` nor `get_account_info` issues a routing send; `put`'s future resolves
`OperationForbiddenForClient` as claimed, but `get_account_info` completes its
handle with `CoreEvent::Mutation(Err)` (`mod.rs` line 550) while its future
extracts `CoreEvent::AccountInfo`, so it resolves `ReceivedUnexpectedEvent`,
contradicting the claim. -/
theorem C4_unregistered_put_account_info
    (heads : List MessageId) (cache : LruCache) (stats : Stats) (nmid : MessageId)
    (data : Data) (sendRes sendRes2 : Except RoutingError Unit) :
    (Client.put (ClientInner.mk heads cache .Unregistered stats nmid) data none
        sendRes).sends = [] ∧
    (Client.put (ClientInner.mk heads cache .Unregistered stats nmid) data none
        sendRes).completedNow
      = some (.Mutation (.error .OperationForbiddenForClient)) ∧
    build_mutation_future
        (Client.put (ClientInner.mk heads cache .Unregistered stats nmid) data none
          sendRes).completedNow
      = .error .OperationForbiddenForClient ∧
    (Client.get_account_info (ClientInner.mk heads cache .Unregistered stats nmid)
        none sendRes2).sends = [] ∧
    (Client.get_account_info (ClientInner.mk heads cache .Unregistered stats nmid)
        none sendRes2).completedNow
      = some (.Mutation (.error .OperationForbiddenForClient)) ∧
    future_resolve_account_info
        (Client.get_account_info (ClientInner.mk heads cache .Unregistered stats nmid)
          none sendRes2).completedNow
      = .error .ReceivedUnexpectedEvent ∧
    CoreError.ReceivedUnexpectedEvent ≠ CoreError.OperationForbiddenForClient := by
  refine ⟨rfl, rfl, rfl, rfl, rfl, rfl, ?_⟩
  intro h
  exact nomatch h

/-- C5: `delete_recover` dispatches exactly one delete (one `MessageId`
allocated, `issued_deletes` incremented by exactly one, one request handed to
routing), maps success, `MutationFailure{NoSuchData}` and
`MutationFailure{InvalidOperation}` to `Ok(())`, and propagates every other
error unchanged. -/
theorem C5_delete_recover_absorbs_and_dispatches_once
    (heads : List MessageId) (cache : LruCache) (ct : ClientType) (stats : Stats)
    (nmid : MessageId) (data : Data) (opt_dst : Option Authority)
    (sendRes : Except RoutingError Unit) (deleteRes : Except CoreError Unit)
    (did : DataIdentifier) :
    (Client.delete_recover (ClientInner.mk heads cache ct stats nmid) data opt_dst
        sendRes deleteRes).state.stats.issued_deletes = stats.issued_deletes + 1 ∧
    (Client.delete_recover (ClientInner.mk heads cache ct stats nmid) data opt_dst
        sendRes deleteRes).state.next_msg_id = nmid + 1 ∧
    (Client.delete_recover (ClientInner.mk heads cache ct stats nmid) data opt_dst
        sendRes deleteRes).sends.length = 1 ∧
    (Client.delete_recover (ClientInner.mk heads cache ct stats nmid) data opt_dst
        sendRes deleteRes).result = delete_recover_then deleteRes ∧
    delete_recover_then (.ok ()) = .ok () ∧
    delete_recover_then (.error (.MutationFailure did .NoSuchData)) = .ok () ∧
    delete_recover_then (.error (.MutationFailure did .InvalidOperation)) = .ok () ∧
    (∀ err : CoreError,
      (∀ d', err ≠ .MutationFailure d' .NoSuchData) →
      (∀ d', err ≠ .MutationFailure d' .InvalidOperation) →
      delete_recover_then (.error err) = .error err) := by
  refine ⟨?_, ?_, ?_, rfl, rfl, rfl, rfl, ?_⟩
  · cases sendRes <;> rfl
  · cases sendRes <;> rfl
  · cases sendRes <;> rfl
  · intro err h1 h2
    cases err with
    | MutationFailure d' reason =>
        cases reason with
        | NoSuchData => exact absurd rfl (h1 d')
        | InvalidOperation => exact absurd rfl (h2 d')
        | _ => rfl
    | _ => rfl

/-- C5 witness: the absorption map applied at concrete inputs, with the
propagation hypotheses discharged at `OperationAborted`. -/
theorem C5_delete_recover_witness :
    (Client.delete_recover (ClientInner.mk [] (LruCache.new IMMUT_DATA_CACHE_SIZE)
        .Unregistered Stats.default 0) (.Immutable ⟨7, [1]⟩) none (.ok ())
        (.error (.MutationFailure (.Immutable 7) .NoSuchData))).result = .ok () ∧
    delete_recover_then (.error .OperationAborted) = .error .OperationAborted := by
  have h := C5_delete_recover_absorbs_and_dispatches_once [] 
    (LruCache.new IMMUT_DATA_CACHE_SIZE) .Unregistered Stats.default 0
    (.Immutable ⟨7, [1]⟩) none (.ok ())
    (.error (.MutationFailure (.Immutable 7) .NoSuchData)) (.Immutable 7)
  refine ⟨?_, ?_⟩
  · exact h.2.2.2.1.trans h.2.2.2.2.2.1
  · exact h.2.2.2.2.2.2.2 .OperationAborted (fun d' hd => nomatch hd)
      (fun d' hd => nomatch hd)

/-- C7 counterexample: a matching `PutFailure` whose indicator parses to
`LowBalance` is an outcome other than the matching `PutSuccess` and carries no
`AccountExists`, yet the constructor returns `MutationFailure{LowBalance}`, not
`OperationAborted` as the claim states. -/
theorem C7_matching_put_failure_not_aborted :
    Client.registered_wait 0
        (.received (.ResponseEv (.PutFailure 0 (.Structured 1 2) .LowBalance)))
      = .error (.MutationFailure (.Structured 1 2) .LowBalance) ∧
    (Except.error (CoreError.MutationFailure (.Structured 1 2) .LowBalance) :
        Except CoreError Unit)
      ≠ .error .OperationAborted := by
  refine ⟨rfl, ?_⟩
  decide

/-- C7 amended: after the synchronous PUT, the constructor proceeds exactly on
a matching `PutSuccess`; a matching `PutFailure` returns `MutationFailure` with
the parsed reason (in particular `AccountExists` surfaces as
`MutationFailure{AccountExists}`); every other outcome of the wait (timeout,
non-matching ids, any other event) returns `OperationAborted`; no client is
returned on any failure. -/
theorem C7_registered_wait_characterization (m : MessageId) (o : RecvOutcome) :
    (Client.registered_wait m o = .ok () ↔
      ∃ d, o = .received (.ResponseEv (.PutSuccess d m))) ∧
    (∀ (did : DataIdentifier) (ind : MutationError),
      Client.registered_wait m o = .error (.MutationFailure did ind) ↔
        o = .received (.ResponseEv (.PutFailure m did ind))) ∧
    ((∀ d, o ≠ .received (.ResponseEv (.PutSuccess d m))) →
     (∀ (did : DataIdentifier) (ind : MutationError),
        o ≠ .received (.ResponseEv (.PutFailure m did ind))) →
      Client.registered_wait m o = .error .OperationAborted) := by
  obtain _ | e := o
  · exact ⟨by simp [Client.registered_wait],
      fun did ind => by simp [Client.registered_wait],
      fun _ _ => rfl⟩
  · cases e with
    | ResponseEv r =>
        cases r with
        | PutSuccess d id =>
            by_cases hid : id = m
            · subst hid
              refine ⟨?_, ?_, ?_⟩
              · simp [Client.registered_wait]
              · intro did ind
                simp [Client.registered_wait]
              · intro h1 _
                exact absurd rfl (h1 d)
            · refine ⟨?_, ?_, ?_⟩
              · simp [Client.registered_wait, hid]
              · intro did ind
                simp [Client.registered_wait, hid]
              · intro _ _
                simp [Client.registered_wait, hid]
        | PutFailure id did0 ind0 =>
            by_cases hid : id = m
            · subst hid
              refine ⟨?_, ?_, ?_⟩
              · simp [Client.registered_wait]
              · intro did ind
                simp [Client.registered_wait, parse_mutation_err]
              · intro _ h2
                exact absurd rfl (h2 did0 ind0)
            · refine ⟨?_, ?_, ?_⟩
              · simp [Client.registered_wait, hid]
              · intro did ind
                simp [Client.registered_wait, hid]
              · intro _ _
                simp [Client.registered_wait, hid]
        | GetSuccess d id =>
            exact ⟨by simp [Client.registered_wait],
              fun did ind => by simp [Client.registered_wait],
              fun _ _ => rfl⟩
        | GetFailure id did ind =>
            exact ⟨by simp [Client.registered_wait],
              fun did2 ind2 => by simp [Client.registered_wait],
              fun _ _ => rfl⟩
        | otherResponse id =>
            exact ⟨by simp [Client.registered_wait],
              fun did ind => by simp [Client.registered_wait],
              fun _ _ => rfl⟩
    | Connected =>
        exact ⟨by simp [Client.registered_wait],
          fun did ind => by simp [Client.registered_wait],
          fun _ _ => rfl⟩
    | Disconnected =>
        exact ⟨by simp [Client.registered_wait],
          fun did ind => by simp [Client.registered_wait],
          fun _ _ => rfl⟩
    | Terminate =>
        exact ⟨by simp [Client.registered_wait],
          fun did ind => by simp [Client.registered_wait],
          fun _ _ => rfl⟩

/-- C7 witness: the characterization applied at concrete outcomes (a matching
`PutFailure{AccountExists}` and a timeout). -/
theorem C7_registered_wait_witness :
    Client.registered_wait 0
        (.received (.ResponseEv (.PutFailure 0 (.Structured 3 4) .AccountExists)))
      = .error (.MutationFailure (.Structured 3 4) .AccountExists) ∧
    Client.registered_wait 0 .timeout = .error .OperationAborted := by
  constructor
  · exact ((C7_registered_wait_characterization 0
      (.received (.ResponseEv (.PutFailure 0 (.Structured 3 4)
        .AccountExists)))).2.1 (.Structured 3 4) .AccountExists).mpr rfl
  · exact (C7_registered_wait_characterization 0 .timeout).2.2
      (fun d h => nomatch h) (fun did ind h => nomatch h)

/-- C3: when the first put of a `Structured` datum fails with
`MutationFailure{InvalidSuccessor}` or `MutationFailure{DataExists}` and the
follow-up get returns an existing tombstoned `Structured` (empty payload,
`is_deleted()`), `put_recover` re-puts a new `Structured` with
`version = old.version + 1`, the caller's payload, owner keys and
previous-owner keys, signed with `sign_sk`, and on that put's success resolves
with `old.version + 1`. -/
theorem C3_put_recover_reclaims_tombstone
    (newD oldD : StructuredData) (sign_sk : SecretSignKey) (did : DataIdentifier)
    (reason : MutationError)
    (hreason : reason = .InvalidSuccessor ∨ reason = .DataExists)
    (hdel : oldD.is_deleted = true) (_hpay : oldD.payload = [])
    (hver : oldD.version + 1 < U64_MOD) :
    (Client.put_recover (.Structured newD) sign_sk
        ⟨.error (.MutationFailure did reason), .ok (.Structured oldD),
          .ok ()⟩).result
      = .ok (oldD.version + 1) ∧
    ∃ r, (Client.put_recover (.Structured newD) sign_sk
        ⟨.error (.MutationFailure did reason), .ok (.Structured oldD),
          .ok ()⟩).puts
        = [Data.Structured newD, Data.Structured r] ∧
      r.version = oldD.version + 1 ∧
      r.payload = newD.payload ∧
      r.owner_keys = newD.owner_keys ∧
      r.previous_owner_keys = newD.previous_owner_keys ∧
      r.signedWith = some sign_sk ∧
      r.type_tag = newD.type_tag ∧
      r.sdName = newD.sdName := by
  have hmod : (oldD.version + 1) % U64_MOD = oldD.version + 1 :=
    Nat.mod_eq_of_lt hver
  rcases hreason with rfl | rfl <;>
    simp [Client.put_recover, dataVersion?, hdel, hmod, StructuredData.new,
      Except.map]

/-- C3 witness: a concrete tombstone reclaimed at version 4. -/
theorem C3_put_recover_witness :
    ((MutationError.InvalidSuccessor = .InvalidSuccessor ∨
        MutationError.InvalidSuccessor = .DataExists) ∧
      (StructuredData.mk 1 2 3 [] [5] [] (some 9) true).is_deleted = true ∧
      (StructuredData.mk 1 2 3 [] [5] [] (some 9) true).payload = [] ∧
      (StructuredData.mk 1 2 3 [] [5] [] (some 9) true).version + 1 < U64_MOD) ∧
    (Client.put_recover
        (.Structured (StructuredData.mk 1 2 0 [8] [5] [] (some 9) false)) 9
        ⟨.error (.MutationFailure (.Structured 2 1) .InvalidSuccessor),
          .ok (.Structured (StructuredData.mk 1 2 3 [] [5] [] (some 9) true)),
          .ok ()⟩).result
      = .ok 4 := by
  refine ⟨⟨Or.inl rfl, rfl, rfl, by decide⟩, ?_⟩
  exact (C3_put_recover_reclaims_tombstone
    (StructuredData.mk 1 2 0 [8] [5] [] (some 9) false)
    (StructuredData.mk 1 2 3 [] [5] [] (some 9) true) 9 (.Structured 2 1)
    .InvalidSuccessor (Or.inl rfl) rfl rfl (by decide)).1

/-- C6: `update_session_packet` (also when invoked through the two
root-directory setters on a registered client) posts a new `Structured` datum
whose version is the fetched version + 1, whose owner-keys list is exactly the
single public maid signing key, whose previous-owner-keys list is empty and
which is signed with the maid secret signing key; hence the version strictly
increases across an update. -/
theorem C6_update_session_packet_fields
    (acc : Account) (loc : XorName) (cred : UserCred) (cm : Authority)
    (heads : List MessageId) (cache : LruCache) (stats : Stats) (nmid : MessageId)
    (cur : StructuredData) (postRes : Except CoreError Unit) (dir_id cfg : DirId)
    (hver : cur.version + 1 < U64_MOD) :
    (∃ upd, Client.update_session_packet
        (ClientInner.mk heads cache (.Registered acc loc cred cm) stats nmid)
        (.ok (.Structured cur)) = .ok upd ∧
      upd.version = cur.version + 1 ∧
      cur.version < upd.version ∧
      upd.owner_keys = [acc.maid_sign_pk] ∧
      upd.previous_owner_keys = [] ∧
      upd.signedWith = some acc.maid_sign_sk ∧
      upd.sdName = loc ∧
      upd.type_tag = TYPE_TAG_SESSION_PACKET) ∧
    (acc.user_root_dir = none →
      ∃ upd, (Client.set_user_root_dir_id
          (ClientInner.mk heads cache (.Registered acc loc cred cm) stats nmid)
          dir_id (.ok (.Structured cur)) postRes).posted = [upd] ∧
        upd.version = cur.version + 1 ∧
        upd.owner_keys = [acc.maid_sign_pk] ∧
        upd.previous_owner_keys = [] ∧
        upd.signedWith = some acc.maid_sign_sk) ∧
    (acc.config_root_dir = none →
      ∃ upd, (Client.set_config_root_dir_id
          (ClientInner.mk heads cache (.Registered acc loc cred cm) stats nmid)
          cfg (.ok (.Structured cur)) postRes).posted = [upd] ∧
        upd.version = cur.version + 1 ∧
        upd.owner_keys = [acc.maid_sign_pk] ∧
        upd.previous_owner_keys = [] ∧
        upd.signedWith = some acc.maid_sign_sk) := by
  have hmod : (cur.version + 1) % U64_MOD = cur.version + 1 :=
    Nat.mod_eq_of_lt hver
  refine ⟨?_, ?_, ?_⟩
  · refine ⟨_, rfl, ?_⟩
    simp [StructuredData.new, ClientType.acc, ClientType.acc_loc,
      ClientType.user_cred, hmod]
  · intro hu
    refine ⟨StructuredData.new TYPE_TAG_SESSION_PACKET loc
      ((cur.version + 1) % U64_MOD)
      (Account.encrypt { acc with user_root_dir := some dir_id } cred.password
        cred.pin)
      [acc.maid_sign_pk] [] (some acc.maid_sign_sk), ?_, ?_⟩
    · simp [Client.set_user_root_dir_id, Account.set_user_root_dir_id, hu,
        Client.update_session_packet, ClientType.acc, ClientType.acc_loc,
        ClientType.user_cred]
    · simp [StructuredData.new, hmod]
  · intro hc
    refine ⟨StructuredData.new TYPE_TAG_SESSION_PACKET loc
      ((cur.version + 1) % U64_MOD)
      (Account.encrypt { acc with config_root_dir := some cfg } cred.password
        cred.pin)
      [acc.maid_sign_pk] [] (some acc.maid_sign_sk), ?_, ?_⟩
    · simp [Client.set_config_root_dir_id, Account.set_config_root_dir, hc,
        Client.update_session_packet, ClientType.acc, ClientType.acc_loc,
        ClientType.user_cred]
    · simp [StructuredData.new, hmod]

/-- C6 witness: the update instantiated on a concrete registered client whose
session packet is at version 5. -/
theorem C6_update_session_packet_witness :
    (StructuredData.mk TYPE_TAG_SESSION_PACKET 11 5 [] [21] [] (some 22)
        false).version + 1 < U64_MOD ∧
    ∃ upd, Client.update_session_packet
        (ClientInner.mk [] (LruCache.new IMMUT_DATA_CACHE_SIZE)
          (.Registered (Account.mk 21 22 23 24 none none) 11 (UserCred.mk [1] [2])
            (.ClientManager 12))
          Stats.default 0)
        (.ok (.Structured (StructuredData.mk TYPE_TAG_SESSION_PACKET 11 5 [] [21]
          [] (some 22) false))) = .ok upd ∧
      upd.version = 6 ∧
      upd.owner_keys = [21] ∧
      upd.previous_owner_keys = [] ∧
      upd.signedWith = some 22 := by
  constructor
  · decide
  · obtain ⟨upd, h1, h2, _, h4, h5, h6, _, _⟩ :=
      (C6_update_session_packet_fields (Account.mk 21 22 23 24 none none) 11
        (UserCred.mk [1] [2]) (.ClientManager 12) []
        (LruCache.new IMMUT_DATA_CACHE_SIZE) Stats.default 0
        (StructuredData.mk TYPE_TAG_SESSION_PACKET 11 5 [] [21] [] (some 22)
          false)
        (.ok ()) (.Immutable 0, none) (.Immutable 0, none) (by decide)).1
    exact ⟨upd, h1, h2, h4, h5, h6⟩

/-- C9: on a registered client with an empty slot, `set_user_root_dir_id`
(likewise `set_config_root_dir_id`) writes the new id into the in-memory
account before the network update is issued (the posted session packet already
encrypts the mutated account), the slot stays populated whatever the update's
outcome (no rollback), and a retry of the same setter on the resulting state
fails `RootDirectoryAlreadyExists` without posting anything. -/
theorem C9_set_root_dir_no_rollback
    (acc : Account) (loc : XorName) (cred : UserCred) (cm : Authority)
    (heads : List MessageId) (cache : LruCache) (stats : Stats) (nmid : MessageId)
    (dir_id dir_id2 cfg cfg2 : DirId) (cur : StructuredData)
    (getRes getRes2 : Except CoreError Data) (postRes postRes2 : Except CoreError Unit)
    (hu : acc.user_root_dir = none) (hc : acc.config_root_dir = none) :
    (Client.set_user_root_dir_id
        (ClientInner.mk heads cache (.Registered acc loc cred cm) stats nmid)
        dir_id getRes postRes).state.client_type
      = .Registered { acc with user_root_dir := some dir_id } loc cred cm ∧
    (getRes = .ok (.Structured cur) →
      ∃ sd, (Client.set_user_root_dir_id
          (ClientInner.mk heads cache (.Registered acc loc cred cm) stats nmid)
          dir_id getRes postRes).posted = [sd] ∧
        sd.payload = Account.encrypt { acc with user_root_dir := some dir_id }
          cred.password cred.pin) ∧
    (Client.set_user_root_dir_id
        (Client.set_user_root_dir_id
          (ClientInner.mk heads cache (.Registered acc loc cred cm) stats nmid)
          dir_id getRes postRes).state
        dir_id2 getRes2 postRes2).result = .error .RootDirectoryAlreadyExists ∧
    (Client.set_user_root_dir_id
        (Client.set_user_root_dir_id
          (ClientInner.mk heads cache (.Registered acc loc cred cm) stats nmid)
          dir_id getRes postRes).state
        dir_id2 getRes2 postRes2).posted = [] ∧
    (Client.set_config_root_dir_id
        (ClientInner.mk heads cache (.Registered acc loc cred cm) stats nmid)
        cfg getRes postRes).state.client_type
      = .Registered { acc with config_root_dir := some cfg } loc cred cm ∧
    (Client.set_config_root_dir_id
        (Client.set_config_root_dir_id
          (ClientInner.mk heads cache (.Registered acc loc cred cm) stats nmid)
          cfg getRes postRes).state
        cfg2 getRes2 postRes2).result = .error .RootDirectoryAlreadyExists := by
  refine ⟨?_, ?_, ?_, ?_, ?_, ?_⟩
  · simp [Client.set_user_root_dir_id, Account.set_user_root_dir_id, hu]
  · intro hg
    subst hg
    refine ⟨StructuredData.new TYPE_TAG_SESSION_PACKET loc
      ((cur.version + 1) % U64_MOD)
      (Account.encrypt { acc with user_root_dir := some dir_id } cred.password
        cred.pin)
      [acc.maid_sign_pk] [] (some acc.maid_sign_sk), ?_, ?_⟩
    · simp [Client.set_user_root_dir_id, Account.set_user_root_dir_id, hu,
        Client.update_session_packet, ClientType.acc, ClientType.acc_loc,
        ClientType.user_cred]
    · simp [StructuredData.new]
  · simp [Client.set_user_root_dir_id, Account.set_user_root_dir_id, hu]
  · simp [Client.set_user_root_dir_id, Account.set_user_root_dir_id, hu]
  · simp [Client.set_config_root_dir_id, Account.set_config_root_dir, hc]
  · simp [Client.set_config_root_dir_id, Account.set_config_root_dir, hc]

/-- C9 witness: the no-rollback behaviour on a concrete registered client with
empty slots and a failing session-packet update. -/
theorem C9_set_root_dir_witness :
    (Account.mk 21 22 23 24 none none).user_root_dir = none ∧
    (Client.set_user_root_dir_id
        (ClientInner.mk [] (LruCache.new IMMUT_DATA_CACHE_SIZE)
          (.Registered (Account.mk 21 22 23 24 none none) 11
            (UserCred.mk [1] [2]) (.ClientManager 12))
          Stats.default 0)
        (.Immutable 7, none) (.error .OperationAborted)
        (.error .OperationAborted)).state.client_type
      = .Registered (Account.mk 21 22 23 24 (some (.Immutable 7, none)) none) 11
          (UserCred.mk [1] [2]) (.ClientManager 12) ∧
    (Client.set_user_root_dir_id
        (Client.set_user_root_dir_id
          (ClientInner.mk [] (LruCache.new IMMUT_DATA_CACHE_SIZE)
            (.Registered (Account.mk 21 22 23 24 none none) 11
              (UserCred.mk [1] [2]) (.ClientManager 12))
            Stats.default 0)
          (.Immutable 7, none) (.error .OperationAborted)
          (.error .OperationAborted)).state
        (.Immutable 7, none) (.error .OperationAborted)
        (.error .OperationAborted)).result
      = .error .RootDirectoryAlreadyExists := by
  have h := C9_set_root_dir_no_rollback (Account.mk 21 22 23 24 none none) 11
    (UserCred.mk [1] [2]) (.ClientManager 12) []
    (LruCache.new IMMUT_DATA_CACHE_SIZE) Stats.default 0
    (.Immutable 7, none) (.Immutable 7, none) (.Immutable 8, none)
    (.Immutable 8, none)
    (StructuredData.mk TYPE_TAG_SESSION_PACKET 11 5 [] [21] [] (some 22) false)
    (.error .OperationAborted) (.error .OperationAborted)
    (.error .OperationAborted) (.error .OperationAborted) rfl rfl
  exact ⟨rfl, h.1, h.2.2.1⟩

/-- A miss reported by `get_mut` leaves the cache untouched. -/
theorem LruCache.get_mut_fst_none (c : LruCache) (k : XorName)
    (h : (c.get_mut k).1 = none) : c.get_mut k = (none, c) := by
  unfold LruCache.get_mut at *
  cases hf : c.entries.find? (fun p => p.1 == k) with
  | none => rfl
  | some p => rw [hf] at h; exact absurd h (by simp)

/-- `get_mut` preserves cache well-formedness: a hit only reorders existing
entries. -/
theorem cache_wf_get_mut (c : LruCache) (k : XorName) (h : cache_wf c) :
    cache_wf (c.get_mut k).2 := by
  obtain ⟨hcap, hent⟩ := h
  unfold LruCache.get_mut
  cases hf : c.entries.find? (fun p => p.1 == k) with
  | none => exact ⟨hcap, hent⟩
  | some p =>
      refine ⟨hcap, ?_⟩
      intro q hq
      rcases List.mem_cons.mp hq with rfl | hq'
      · exact hent q (List.mem_of_find?_eq_some hf)
      · exact hent q (List.mem_of_mem_filter hq')

/-- Inserting an immutable datum keyed by its own name preserves cache
well-formedness. -/
theorem cache_wf_insert (c : LruCache) (d : ImmutableData) (h : cache_wf c) :
    cache_wf (c.insert d.dataName (Data.Immutable d)) := by
  obtain ⟨hcap, hent⟩ := h
  refine ⟨hcap, ?_⟩
  intro q hq
  unfold LruCache.insert at hq
  have hq' := List.take_subset _ _ hq
  rcases List.mem_cons.mp hq' with rfl | hq2
  · exact ⟨d, rfl, rfl⟩
  · exact hent q (List.mem_of_mem_filter hq2)

/-- `get_send` never touches the cache. -/
theorem Client.get_send_state_cache (st : ClientInner) (data_id : DataIdentifier)
    (o : Option Authority) (r : Except RoutingError Unit) :
    (Client.get_send st data_id o r).state.cache = st.cache := by
  cases r <;> rfl

/-- `put` never touches the cache. -/
theorem Client.put_state_cache (heads : List MessageId) (cache : LruCache)
    (ct : ClientType) (stats : Stats) (nmid : MessageId) (data : Data)
    (o : Option Authority) (r : Except RoutingError Unit) :
    (Client.put (ClientInner.mk heads cache ct stats nmid) data o r).state.cache
      = cache := by
  rcases o with _ | a
  · cases ct with
    | Unregistered => rfl
    | Registered acc loc cred cm => cases r <;> rfl
  · cases r <;> rfl

/-- `post` never touches the cache. -/
theorem Client.post_state_cache (heads : List MessageId) (cache : LruCache)
    (ct : ClientType) (stats : Stats) (nmid : MessageId) (data : Data)
    (o : Option Authority) (r : Except RoutingError Unit) :
    (Client.post (ClientInner.mk heads cache ct stats nmid) data o r).state.cache
      = cache := by
  cases r <;> rfl

/-- `delete` never touches the cache. -/
theorem Client.delete_state_cache (heads : List MessageId) (cache : LruCache)
    (ct : ClientType) (stats : Stats) (nmid : MessageId) (data : Data)
    (o : Option Authority) (r : Except RoutingError Unit) :
    (Client.delete (ClientInner.mk heads cache ct stats nmid) data o r).state.cache
      = cache := by
  cases r <;> rfl

/-- `append` never touches the cache. -/
theorem Client.append_state_cache (heads : List MessageId) (cache : LruCache)
    (ct : ClientType) (stats : Stats) (nmid : MessageId) (w : AppendWrapper)
    (o : Option Authority) (r : Except RoutingError Unit) :
    (Client.append (ClientInner.mk heads cache ct stats nmid) w o r).state.cache
      = cache := by
  cases r <;> rfl

/-- `get_account_info` never touches the cache. -/
theorem Client.get_account_info_state_cache (heads : List MessageId)
    (cache : LruCache) (ct : ClientType) (stats : Stats) (nmid : MessageId)
    (o : Option Authority) (r : Except RoutingError Unit) :
    (Client.get_account_info (ClientInner.mk heads cache ct stats nmid)
        o r).state.cache = cache := by
  rcases o with _ | a
  · cases ct with
    | Unregistered => rfl
    | Registered acc loc cred cm => cases r <;> rfl
  · cases r <;> rfl

/-- The cache after a `get` is either untouched or the promoted cache returned
by `get_mut` (`get` never inserts; insertion happens only at resolution). -/
theorem Client.get_state_cache (heads : List MessageId) (cache : LruCache)
    (ct : ClientType) (stats : Stats) (nmid : MessageId)
    (data_id : DataIdentifier) (o : Option Authority)
    (r : Except RoutingError Unit) :
    (Client.get (ClientInner.mk heads cache ct stats nmid) data_id o r).state.cache
        = cache ∨
    (Client.get (ClientInner.mk heads cache ct stats nmid) data_id o r).state.cache
        = (cache.get_mut data_id.name).2 := by
  cases data_id with
  | Immutable n =>
      right
      unfold Client.get
      dsimp only [DataIdentifier.name]
      rcases hm : cache.get_mut n with ⟨hit, c2⟩
      cases hit with
      | some d => rfl
      | none => exact Client.get_send_state_cache _ _ _ _
  | Structured n tag => exact Or.inl (Client.get_send_state_cache _ _ _ _)
  | PrivAppendable n => exact Or.inl (Client.get_send_state_cache _ _ _ _)
  | PubAppendable n => exact Or.inl (Client.get_send_state_cache _ _ _ _)

/-- Every single client step preserves cache well-formedness. -/
theorem cache_wf_clientStep (st : ClientInner) (s : ClientStep)
    (h : cache_wf st.cache) : cache_wf (clientStep st s).cache := by
  obtain ⟨heads, cache, ct, stats, nmid⟩ := st
  cases s with
  | stepGet data_id dst sendRes =>
      rcases Client.get_state_cache heads cache ct stats nmid data_id dst sendRes
        with hc | hc
      · rw [clientStep, hc]; exact h
      · rw [clientStep, hc]; exact cache_wf_get_mut _ _ h
  | stepGetResolve data_id res =>
      cases data_id with
      | Immutable n =>
          cases res with
          | ok data =>
              cases data with
              | Immutable d => exact cache_wf_insert _ _ h
              | Structured d => exact h
              | PrivAppendable d => exact h
              | PubAppendable d => exact h
          | error e => exact h
      | Structured n tag => exact h
      | PrivAppendable n => exact h
      | PubAppendable n => exact h
  | stepPut data dst sendRes =>
      rw [clientStep, Client.put_state_cache]; exact h
  | stepPost data dst sendRes =>
      rw [clientStep, Client.post_state_cache]; exact h
  | stepDelete data dst sendRes =>
      rw [clientStep, Client.delete_state_cache]; exact h
  | stepAppend w dst sendRes =>
      rw [clientStep, Client.append_state_cache]; exact h
  | stepAccountInfo dst sendRes =>
      rw [clientStep, Client.get_account_info_state_cache]; exact h

/-- C8: from any constructor-built client state, after any sequence of client
steps every cache entry maps an `XorName` to a `Data::Immutable` value keyed by
its own name (the only insertion path being the resolution of an immutable
`get`), and the cache capacity is `IMMUT_DATA_CACHE_SIZE = 300`. -/
theorem C8_cache_only_immutable (ct : ClientType) (steps : List ClientStep) :
    cache_wf ((steps.foldl clientStep (initial_inner ct)).cache) ∧
    ((steps.foldl clientStep (initial_inner ct)).cache).capacity = 300 := by
  have h0 : cache_wf (initial_inner ct).cache := by
    refine ⟨rfl, ?_⟩
    intro p hp
    exact absurd hp (by simp [initial_inner, LruCache.new])
  have main : ∀ (l : List ClientStep) (st : ClientInner), cache_wf st.cache →
      cache_wf ((l.foldl clientStep st).cache) := by
    intro l
    induction l with
    | nil => intro st h; exact h
    | cons s l ih => intro st h; exact ih _ (cache_wf_clientStep st s h)
  refine ⟨main steps _ h0, ?_⟩
  exact (main steps _ h0).1

/-- Evaluation of `get` on an immutable identifier that hits the cache: the
handle is completed synchronously with the cached value, routing is not called,
and only the get counter and the cache recency change. -/
theorem Client.get_immutable_hit (heads : List MessageId) (cache : LruCache)
    (ct : ClientType) (stats : Stats) (nmid : MessageId) (n : XorName)
    (o : Option Authority) (r : Except RoutingError Unit) (d : Data)
    (c2 : LruCache) (h : cache.get_mut n = (some d, c2)) :
    Client.get (ClientInner.mk heads cache ct stats nmid) (.Immutable n) o r
      = { state := ClientInner.mk heads c2 ct
            (Stats.mk (stats.issued_gets + 1) stats.issued_puts stats.issued_posts
              stats.issued_deletes stats.issued_appends) nmid
          sends := []
          completedNow := some (.Get (.ok d)) } := by
  unfold Client.get
  dsimp only [DataIdentifier.name]
  rw [h]

/-- Evaluation of `get` on an immutable identifier that misses the cache: the
request goes to `get_send` with the cache unchanged. -/
theorem Client.get_immutable_miss (heads : List MessageId) (cache : LruCache)
    (ct : ClientType) (stats : Stats) (nmid : MessageId) (n : XorName)
    (o : Option Authority) (r : Except RoutingError Unit)
    (h : (cache.get_mut n).1 = none) :
    Client.get (ClientInner.mk heads cache ct stats nmid) (.Immutable n) o r
      = Client.get_send
          (ClientInner.mk heads cache ct
            (Stats.mk (stats.issued_gets + 1) stats.issued_puts stats.issued_posts
              stats.issued_deletes stats.issued_appends) nmid)
          (.Immutable n) o r := by
  have h2 := LruCache.get_mut_fst_none cache n h
  unfold Client.get
  dsimp only [DataIdentifier.name]
  rw [h2]

/-- A cached value is served without any routing send. -/
theorem Client.get_hit_of_cache (heads : List MessageId) (cache : LruCache)
    (ct : ClientType) (stats : Stats) (nmid : MessageId) (n : XorName)
    (o : Option Authority) (r : Except RoutingError Unit) (v : Data)
    (h : (cache.get_mut n).1 = some v) :
    (Client.get (ClientInner.mk heads cache ct stats nmid) (.Immutable n)
        o r).sends = [] ∧
    (Client.get (ClientInner.mk heads cache ct stats nmid) (.Immutable n)
        o r).completedNow = some (.Get (.ok v)) := by
  rcases hm : cache.get_mut n with ⟨hit, c2⟩
  rw [hm] at h
  cases hit with
  | none => exact absurd h (by simp)
  | some v' =>
      have hv : v' = v := Option.some.inj h
      rw [hv] at hm
      rw [Client.get_immutable_hit heads cache ct stats nmid n o r v c2 hm]
      exact ⟨rfl, rfl⟩

/-- `find?` over a non-trivial `take` of a cons whose head matches. -/
theorem find?_take_cons {α : Type} (p : α → Bool) (x : α) (l : List α) (n : Nat)
    (hn : 0 < n) (hx : p x = true) : ((x :: l).take n).find? p = some x := by
  cases n with
  | zero => omega
  | succ m => simp [List.take_succ_cons, List.find?_cons_of_pos, hx]

/-- C2: a `get` of an immutable identifier present in the cache completes the
handle synchronously with the cached value and issues no routing send; and
after a `get` of immutable `X` that missed the cache resolves successfully, a
second `get` of `X` (without intervening eviction) issues zero routing calls
and is served from the cache. -/
theorem C2_get_immutable_cache (heads : List MessageId) (cache : LruCache)
    (ct : ClientType) (stats : Stats) (nmid : MessageId) (X : XorName) (v : Data)
    (o o2 : Option Authority) (r r2 : Except RoutingError Unit)
    (d : ImmutableData) :
    ((cache.get_mut X).1 = some v →
      (Client.get (ClientInner.mk heads cache ct stats nmid) (.Immutable X)
          o r).sends = [] ∧
      (Client.get (ClientInner.mk heads cache ct stats nmid) (.Immutable X)
          o r).completedNow = some (.Get (.ok v)) ∧
      future_resolve_get
          (Client.get (ClientInner.mk heads cache ct stats nmid) (.Immutable X)
            o r).completedNow = .ok v) ∧
    ((cache.get_mut X).1 = none → d.dataName = X → 0 < cache.capacity →
      (Client.get (ClientInner.mk heads cache ct stats nmid) (.Immutable X) none
          (.ok ())).sends.length = 1 ∧
      (Client.get (ClientInner.mk heads cache ct stats nmid) (.Immutable X) none
          (.ok ())).completedNow = none ∧
      (Client.get
          (Client.get_resolve
            (Client.get (ClientInner.mk heads cache ct stats nmid) (.Immutable X)
              none (.ok ())).state
            (.Immutable X) (.ok (.Immutable d)))
          (.Immutable X) o2 r2).sends = [] ∧
      (Client.get
          (Client.get_resolve
            (Client.get (ClientInner.mk heads cache ct stats nmid) (.Immutable X)
              none (.ok ())).state
            (.Immutable X) (.ok (.Immutable d)))
          (.Immutable X) o2 r2).completedNow
        = some (.Get (.ok (.Immutable d)))) := by
  constructor
  · intro h
    obtain ⟨h1, h2⟩ := Client.get_hit_of_cache heads cache ct stats nmid X o r v h
    exact ⟨h1, h2, by rw [h2]; rfl⟩
  · intro h hX hcap
    subst hX
    rw [Client.get_immutable_miss heads cache ct stats nmid d.dataName none
      (.ok ()) h]
    refine ⟨rfl, rfl, ?_⟩
    have e2 : Client.get_resolve
        (Client.get_send
          (ClientInner.mk heads cache ct
            (Stats.mk (stats.issued_gets + 1) stats.issued_puts stats.issued_posts
              stats.issued_deletes stats.issued_appends) nmid)
          (.Immutable d.dataName) none (.ok ())).state
        (.Immutable d.dataName) (.ok (.Immutable d))
        = ClientInner.mk (nmid :: heads)
            (cache.insert d.dataName (Data.Immutable d)) ct
            (Stats.mk (stats.issued_gets + 1) stats.issued_puts stats.issued_posts
              stats.issued_deletes stats.issued_appends) (nmid + 1) := rfl
    rw [e2]
    have hfind : ((cache.insert d.dataName (Data.Immutable d)).entries).find?
        (fun p => p.1 == d.dataName) = some (d.dataName, Data.Immutable d) := by
      unfold LruCache.insert
      exact find?_take_cons _ _ _ _ hcap (by simp)
    have hhit : ((cache.insert d.dataName (Data.Immutable d)).get_mut
        d.dataName).1 = some (Data.Immutable d) := by
      unfold LruCache.get_mut
      rw [hfind]
    exact Client.get_hit_of_cache (nmid :: heads)
      (cache.insert d.dataName (Data.Immutable d)) ct
      (Stats.mk (stats.issued_gets + 1) stats.issued_puts stats.issued_posts
        stats.issued_deletes stats.issued_appends) (nmid + 1) d.dataName o2 r2
      (Data.Immutable d) hhit

/-- C2 witness: the hit case on a one-entry cache and the miss-then-hit
scenario on an empty cache, both at concrete inputs. -/
theorem C2_get_immutable_cache_witness :
    ((LruCache.mk 300 [(5, Data.Immutable ⟨5, [1, 2]⟩)]).get_mut 5).1
        = some (Data.Immutable ⟨5, [1, 2]⟩) ∧
    (Client.get (ClientInner.mk [] (LruCache.mk 300
        [(5, Data.Immutable ⟨5, [1, 2]⟩)]) .Unregistered Stats.default 0)
        (.Immutable 5) none (.ok ())).sends = [] ∧
    ((LruCache.new IMMUT_DATA_CACHE_SIZE).get_mut 7).1 = none ∧
    (Client.get
        (Client.get_resolve
          (Client.get (ClientInner.mk [] (LruCache.new IMMUT_DATA_CACHE_SIZE)
            .Unregistered Stats.default 0) (.Immutable 7) none (.ok ())).state
          (.Immutable 7) (.ok (.Immutable ⟨7, [9]⟩)))
        (.Immutable 7) none (.ok ())).sends = [] := by
  refine ⟨rfl, ?_, rfl, ?_⟩
  · exact ((C2_get_immutable_cache [] (LruCache.mk 300
      [(5, Data.Immutable ⟨5, [1, 2]⟩)]) .Unregistered Stats.default 0 5
      (Data.Immutable ⟨5, [1, 2]⟩) none none (.ok ()) (.ok ())
      ⟨5, [1, 2]⟩).1 rfl).1
  · exact (((C2_get_immutable_cache [] (LruCache.new IMMUT_DATA_CACHE_SIZE)
      .Unregistered Stats.default 0 7 (Data.Immutable ⟨7, [9]⟩) none none
      (.ok ()) (.ok ()) ⟨7, [9]⟩).2 rfl rfl (by decide)).2.2).1
